import Mathlib

/-
Formal model of the dual-provider AI request adapter of this repository
(services/aiService.js: getAIResponse for the Gemini-style ProviderA and
getOpenAIResponse for the OpenAI-style ProviderB).  The internal chat
history is a list of turns with role "user" or "model"; each adapter maps
it to a provider-specific payload, posts it, and normalizes the reply.
-/

/-- Speaker of one turn in the internal chat history.  The caller
(App.js) stores the JavaScript string "user" for the human and "model"
for the agent; this inductive is that two-value role set. -/
inductive Speaker where
  | user
  | agent
deriving DecidableEq

/-- One message of the internal conversation: a role and its text. -/
structure Turn where
  role : Speaker
  text : String
deriving DecidableEq

/-- A part of a Gemini-style content turn as built by the adapter. -/
structure GPart where
  text : String
deriving DecidableEq

/-- One entry of the Gemini-style contents array. -/
structure GTurn where
  role : String
  parts : List GPart
deriving DecidableEq

/-- The generationConfig object of the Gemini-style payload. -/
structure GenerationConfig where
  temperature : ℚ
  topK : ℕ
  topP : ℚ
  maxOutputTokens : ℕ
deriving DecidableEq

/-- The full request body posted by getAIResponse. -/
structure GeminiPayload where
  contents : List GTurn
  generationConfig : GenerationConfig
deriving DecidableEq

/-- The persona text of the initialPrompt constant in getAIResponse. -/
def geminiPersonaText : String :=
  "You are a helpful and patient tech support agent. Your goal is to assist the user in troubleshooting common technical issues. Provide clear, step-by-step instructions and ask clarifying questions when needed. Keep your responses professional and focused on problem-solving. This is for training purposes, so be thorough in your explanations. Start by asking the user what problem they are experiencing."

/-- The initialPrompt constant of getAIResponse: the persona directive
wrapped as a user-role turn. -/
def initialPrompt : GTurn :=
  { role := "user", parts := [{ text := geminiPersonaText }] }

/-- The per-turn mapping applied by getAIResponse over chatHistory:
role "user" stays "user", anything else becomes "model", and the text is
wrapped as a one-element parts list. -/
def mapTurnGemini (msg : Turn) : GTurn :=
  { role := if msg.role = Speaker.user then "user" else "model",
    parts := [{ text := msg.text }] }

/-- The turn pushed for the current user input in getAIResponse. -/
def newUserTurnGemini (userInput : String) : GTurn :=
  { role := "user", parts := [{ text := userInput }] }

/-- The request body built by getAIResponse before the fetch call: the
mapped history plus the new user turn, except that on the first message
the content list is replaced by exactly the persona turn and the new user
turn. -/
def buildGeminiPayload (chatHistory : List Turn) (userInput : String)
    (isFirstMessage : Bool) : GeminiPayload :=
  let apiChatHistory :=
    chatHistory.map mapTurnGemini ++ [newUserTurnGemini userInput]
  { contents :=
      if isFirstMessage then [initialPrompt, newUserTurnGemini userInput]
      else apiChatHistory,
    generationConfig :=
      { temperature := 7/10, topK := 40, topP := 95/100,
        maxOutputTokens := 500 } }

/-- One entry of the OpenAI-style messages array. -/
structure OMessage where
  role : String
  content : String
deriving DecidableEq

/-- The full request body posted by getOpenAIResponse. -/
structure OpenAIPayload where
  model : String
  messages : List OMessage
  temperature : ℚ
  max_tokens : ℕ
deriving DecidableEq

/-- The system-message persona text of getOpenAIResponse. -/
def openaiPersonaText : String :=
  "You are a helpful and patient tech support agent. Your goal is to assist the user in troubleshooting common technical issues. Provide clear, step-by-step instructions and ask clarifying questions when needed. Keep your responses professional and focused on problem-solving."

/-- The per-turn mapping applied by getOpenAIResponse over chatHistory:
role "model" becomes "assistant", anything else becomes "user". -/
def mapTurnOpenAI (msg : Turn) : OMessage :=
  { role := if msg.role = Speaker.agent then "assistant" else "user",
    content := msg.text }

/-- The messages array built by getOpenAIResponse: leading system persona
message, the mapped history, then the current user input. -/
def buildOpenAIMessages (chatHistory : List Turn) (userInput : String) :
    List OMessage :=
  { role := "system", content := openaiPersonaText }
    :: (chatHistory.map mapTurnOpenAI
        ++ [{ role := "user", content := userInput }])

/-- The request body built by getOpenAIResponse before the fetch call. -/
def buildOpenAIPayload (chatHistory : List Turn) (userInput : String) :
    OpenAIPayload :=
  { model := "gpt-3.5-turbo",
    messages := buildOpenAIMessages chatHistory userInput,
    temperature := 7/10,
    max_tokens := 500 }

/-- The failure taxonomy of the adapter contract: a non-success HTTP
status carrying that status, or a 2xx body lacking the expected fields. -/
inductive ProviderError where
  | httpFailure (status : ℕ)
  | malformedResponse
deriving DecidableEq

/-- One element of the parts array of a Gemini reply body; the text
field may be absent in the JSON, hence the Option. -/
structure GeminiRespPart where
  text : Option String
deriving DecidableEq

/-- The content object of a Gemini reply candidate; parts may be absent. -/
structure GeminiContent where
  parts : Option (List GeminiRespPart)
deriving DecidableEq

/-- One element of the candidates array of a Gemini reply body. -/
structure GeminiCandidate where
  content : Option GeminiContent
deriving DecidableEq

/-- A parsed Gemini reply body; candidates may be absent. -/
structure GeminiBody where
  candidates : Option (List GeminiCandidate)
deriving DecidableEq

/-- The success-path field checks of getAIResponse: candidates present
and non-empty, first candidate has content, content has a non-empty
parts list; then the text field of the first part is returned as-is.
An ok none result models the JavaScript function returning undefined
when the text field itself is absent: the guards never look at it. -/
def extractGeminiText (result : GeminiBody) :
    Except ProviderError (Option String) :=
  match result.candidates with
  | some (c :: _) =>
    match c.content with
    | some content =>
      match content.parts with
      | some (p :: _) => Except.ok p.text
      | _ => Except.error ProviderError.malformedResponse
    | none => Except.error ProviderError.malformedResponse
  | _ => Except.error ProviderError.malformedResponse

/-- The message object of an OpenAI reply choice; content may be absent. -/
structure OpenAIRespMessage where
  content : Option String
deriving DecidableEq

/-- One element of the choices array of an OpenAI reply body. -/
structure OpenAIChoice where
  message : Option OpenAIRespMessage
deriving DecidableEq

/-- A parsed OpenAI reply body; choices may be absent. -/
structure OpenAIBody where
  choices : Option (List OpenAIChoice)
deriving DecidableEq

/-- The success-path field checks of getOpenAIResponse: choices present
and non-empty and the first choice has a message; then the content field
of that message is returned as-is (ok none models returning undefined
when content is absent: the guard never looks at it). -/
def extractOpenAIText (data : OpenAIBody) :
    Except ProviderError (Option String) :=
  match data.choices with
  | some (c :: _) =>
    match c.message with
    | some m => Except.ok m.content
    | none => Except.error ProviderError.malformedResponse
  | _ => Except.error ProviderError.malformedResponse

/-- An HTTP response as seen by the adapter after the fetch call: a
numeric status and a parsed body of the provider-specific shape. -/
structure HttpResponse (β : Type) where
  status : ℕ
  body : β
deriving DecidableEq

/-- The ok flag of a fetch Response: status in the range 200 to 299. -/
def httpOk (status : ℕ) : Bool :=
  200 ≤ status && status < 300

/-- Response handling of getAIResponse: a non-ok status fails with that
status before the body is ever parsed; an ok status runs the field
checks. -/
def handleGeminiResponse (response : HttpResponse GeminiBody) :
    Except ProviderError (Option String) :=
  if httpOk response.status then extractGeminiText response.body
  else Except.error (ProviderError.httpFailure response.status)

/-- Response handling of getOpenAIResponse, same structure. -/
def handleOpenAIResponse (response : HttpResponse OpenAIBody) :
    Except ProviderError (Option String) :=
  if httpOk response.status then extractOpenAIText response.body
  else Except.error (ProviderError.httpFailure response.status)

/-- The whole getAIResponse call, with the network modelled as a function
from the posted payload to the HTTP response it produces. -/
def getAIResponse (chatHistory : List Turn) (userInput : String)
    (isFirstMessage : Bool)
    (transport : GeminiPayload → HttpResponse GeminiBody) :
    Except ProviderError (Option String) :=
  handleGeminiResponse
    (transport (buildGeminiPayload chatHistory userInput isFirstMessage))

/-- The whole getOpenAIResponse call, same transport modelling. -/
def getOpenAIResponse (chatHistory : List Turn) (userInput : String)
    (transport : OpenAIPayload → HttpResponse OpenAIBody) :
    Except ProviderError (Option String) :=
  handleOpenAIResponse
    (transport (buildOpenAIPayload chatHistory userInput))

/-- The two local array variables of getAIResponse.  In the JavaScript,
chatHistory.map allocates a fresh array bound to apiChatHistory, and the
subsequent push mutates only that fresh array. -/
structure GeminiLocals where
  chatHistory : List Turn
  apiChatHistory : List GTurn
deriving DecidableEq

/-- The payload-building statements of getAIResponse as explicit updates
on its local variables: the map writes a fresh list into apiChatHistory,
the push appends to apiChatHistory, and chatHistory is only read. -/
def geminiBuildStep (l : GeminiLocals) (userInput : String)
    (isFirstMessage : Bool) : GeminiLocals × GeminiPayload :=
  let l1 : GeminiLocals :=
    { l with apiChatHistory := l.chatHistory.map mapTurnGemini }
  let l2 : GeminiLocals :=
    { l1 with apiChatHistory :=
        l1.apiChatHistory ++ [newUserTurnGemini userInput] }
  (l2,
   { contents :=
       if isFirstMessage then [initialPrompt, newUserTurnGemini userInput]
       else l2.apiChatHistory,
     generationConfig :=
       { temperature := 7/10, topK := 40, topP := 95/100,
         maxOutputTokens := 500 } })

/-- The local variables of getOpenAIResponse: the messages list is built
in one expression by spreading the mapped history into a fresh array;
chatHistory is only read. -/
structure OpenAILocals where
  chatHistory : List Turn
  messages : List OMessage
deriving DecidableEq

/-- The payload-building statements of getOpenAIResponse as explicit
updates on its local variables. -/
def openaiBuildStep (l : OpenAILocals) (userInput : String) :
    OpenAILocals × OpenAIPayload :=
  let l1 : OpenAILocals :=
    { l with messages := buildOpenAIMessages l.chatHistory userInput }
  (l1,
   { model := "gpt-3.5-turbo", messages := l1.messages,
     temperature := 7/10, max_tokens := 500 })

/-- A canned Gemini success body embedding one reply string. -/
def geminiSuccessBody (s : String) : GeminiBody :=
  { candidates :=
      some [{ content := some { parts := some [{ text := some s }] } }] }

/-- A canned OpenAI success body embedding one reply string. -/
def openaiSuccessBody (s : String) : OpenAIBody :=
  { choices := some [{ message := some { content := some s } }] }

/-- C1: with isFirstTurn true the ProviderA content list is exactly the
persona turn followed by the new user turn, of length 2, for every
history and user text; the mapped history never appears. -/
theorem gemini_first_turn_contents (chatHistory : List Turn)
    (userInput : String) :
    (buildGeminiPayload chatHistory userInput true).contents
      = [initialPrompt, newUserTurnGemini userInput] ∧
    (buildGeminiPayload chatHistory userInput true).contents.length = 2 ∧
    initialPrompt
      = { role := "user", parts := [{ text := geminiPersonaText }] } ∧
    newUserTurnGemini userInput
      = { role := "user", parts := [{ text := userInput }] } :=
  ⟨rfl, rfl, rfl, rfl⟩

/-- C2: with isFirstTurn false the ProviderA content list is the mapped
history in order followed by the new user turn, of length one more than
the history, with roles mapped User to user and Agent to model and each
text wrapped as a one-element parts list. -/
theorem gemini_later_turn_contents (chatHistory : List Turn)
    (userInput : String) :
    (buildGeminiPayload chatHistory userInput false).contents
      = chatHistory.map mapTurnGemini ++ [newUserTurnGemini userInput] ∧
    (buildGeminiPayload chatHistory userInput false).contents.length
      = chatHistory.length + 1 ∧
    (∀ s : String, mapTurnGemini { role := Speaker.user, text := s }
      = { role := "user", parts := [{ text := s }] }) ∧
    (∀ s : String, mapTurnGemini { role := Speaker.agent, text := s }
      = { role := "model", parts := [{ text := s }] }) ∧
    newUserTurnGemini userInput
      = { role := "user", parts := [{ text := userInput }] } := by
  refine ⟨rfl, ?_, fun s => rfl, fun s => rfl, rfl⟩
  simp [buildGeminiPayload]

/-- C3: the ProviderB message list always has length two more than the
history, starting with the system persona message, then the history in
order with Agent mapped to assistant and User to user, ending with the
new user text. -/
theorem openai_messages_shape (chatHistory : List Turn)
    (userInput : String) :
    buildOpenAIMessages chatHistory userInput
      = { role := "system", content := openaiPersonaText }
        :: (chatHistory.map mapTurnOpenAI
            ++ [{ role := "user", content := userInput }]) ∧
    (buildOpenAIMessages chatHistory userInput).length
      = chatHistory.length + 2 ∧
    (buildOpenAIMessages chatHistory userInput).head?
      = some { role := "system", content := openaiPersonaText } ∧
    (buildOpenAIMessages chatHistory userInput).getLast?
      = some { role := "user", content := userInput } ∧
    (∀ s : String, mapTurnOpenAI { role := Speaker.agent, text := s }
      = { role := "assistant", content := s }) ∧
    (∀ s : String, mapTurnOpenAI { role := Speaker.user, text := s }
      = { role := "user", content := s }) := by
  refine ⟨rfl, ?_, rfl, ?_, fun s => rfl, fun s => rfl⟩
  · simp [buildOpenAIMessages]
  · rw [buildOpenAIMessages, ← List.cons_append, List.getLast?_concat]

/-- C4 counterexample: the claim says a 2xx body whose nested text field
is missing or empty must fail, but the code never checks that field:
ProviderA returns the empty string as a success, returns undefined when
the text field is absent, and ProviderB returns undefined when content
is absent from the message. -/
theorem nested_text_unchecked_cex :
    extractGeminiText
      { candidates :=
          some [{ content := some { parts := some [{ text := some "" }] } }] }
      = Except.ok (some "") ∧
    extractGeminiText
      { candidates :=
          some [{ content := some { parts := some [{ text := none }] } }] }
      = Except.ok none ∧
    extractOpenAIText
      { choices := some [{ message := some { content := none } }] }
      = Except.ok none :=
  ⟨rfl, rfl, rfl⟩

/-- C4 amended: on a 2xx body, ProviderA fails with MalformedResponse
exactly when candidates is absent or empty, or the first candidate lacks
content, or its parts list is absent or empty; otherwise it returns the
text field of the first part as-is, even when that field is absent or
empty.  ProviderB fails exactly when choices is absent or empty or the
first choice lacks a message; otherwise it returns the content field of
that message as-is, even when absent. -/
theorem nested_field_checks (g : GeminiBody) (o : OpenAIBody) :
    (extractGeminiText g = Except.error ProviderError.malformedResponse ↔
      g.candidates = none ∨ g.candidates = some [] ∨
      (∃ c rest, g.candidates = some (c :: rest) ∧
        (c.content = none ∨
         ∃ ct, c.content = some ct ∧
           (ct.parts = none ∨ ct.parts = some [])))) ∧
    (∀ c rest ct p prest, g.candidates = some (c :: rest) →
      c.content = some ct → ct.parts = some (p :: prest) →
      extractGeminiText g = Except.ok p.text) ∧
    (extractOpenAIText o = Except.error ProviderError.malformedResponse ↔
      o.choices = none ∨ o.choices = some [] ∨
      (∃ c rest, o.choices = some (c :: rest) ∧ c.message = none)) ∧
    (∀ c rest m, o.choices = some (c :: rest) → c.message = some m →
      extractOpenAIText o = Except.ok m.content) := by
  obtain ⟨cand⟩ := g
  obtain ⟨ch⟩ := o
  refine ⟨?_, ?_, ?_, ?_⟩
  · rcases cand with _ | ⟨_ | ⟨⟨_ | ⟨_ | pts⟩⟩, rest⟩⟩ <;>
      simp [extractGeminiText]
    rcases pts with _ | ⟨p, prest⟩ <;> simp
  · rintro c rest ct p prest rfl hc hp
    simp [extractGeminiText, hc, hp]
  · rcases ch with _ | ⟨_ | ⟨⟨_ | m⟩, rest⟩⟩ <;> simp [extractOpenAIText]
  · rintro c rest m rfl hm
    simp [extractOpenAIText, hm]

/-- C4 amended, concrete instance: well-shaped bodies yield the embedded
fields. -/
theorem nested_field_checks_witness :
    extractGeminiText (geminiSuccessBody "hi") = Except.ok (some "hi") ∧
    extractOpenAIText (openaiSuccessBody "yo") = Except.ok (some "yo") :=
  ⟨(nested_field_checks (geminiSuccessBody "hi")
      (openaiSuccessBody "yo")).2.1 _ [] _ _ [] rfl rfl rfl,
   (nested_field_checks (geminiSuccessBody "hi")
      (openaiSuccessBody "yo")).2.2.2 _ [] _ rfl rfl⟩

/-- C5: any response whose status is outside the 2xx range makes either
adapter fail with HttpFailure carrying exactly that status, for every
body, so the body is never parsed into a success value. -/
theorem http_failure_propagates (respA : HttpResponse GeminiBody)
    (respB : HttpResponse OpenAIBody)
    (hA : ¬ (200 ≤ respA.status ∧ respA.status < 300))
    (hB : ¬ (200 ≤ respB.status ∧ respB.status < 300)) :
    handleGeminiResponse respA
      = Except.error (ProviderError.httpFailure respA.status) ∧
    handleOpenAIResponse respB
      = Except.error (ProviderError.httpFailure respB.status) := by
  have hA2 : httpOk respA.status = false := by
    simp only [httpOk, Bool.and_eq_false_iff, decide_eq_false_iff_not]
    omega
  have hB2 : httpOk respB.status = false := by
    simp only [httpOk, Bool.and_eq_false_iff, decide_eq_false_iff_not]
    omega
  constructor
  · simp [handleGeminiResponse, hA2]
  · simp [handleOpenAIResponse, hB2]

/-- C5 at a concrete input: a 404 with an otherwise perfect body still
fails with HttpFailure 404 on both adapters. -/
theorem http_failure_propagates_witness :
    handleGeminiResponse ⟨404, geminiSuccessBody "hi"⟩
      = Except.error (ProviderError.httpFailure 404) ∧
    handleOpenAIResponse ⟨404, openaiSuccessBody "yo"⟩
      = Except.error (ProviderError.httpFailure 404) :=
  http_failure_propagates ⟨404, geminiSuccessBody "hi"⟩
    ⟨404, openaiSuccessBody "yo"⟩ (by decide) (by decide)

/-- C6: a 200-status body whose top-level candidates or choices field is
absent or an empty list fails with MalformedResponse and never yields a
text value. -/
theorem missing_top_field_malformed (g : GeminiBody) (o : OpenAIBody)
    (hg : g.candidates = none ∨ g.candidates = some [])
    (ho : o.choices = none ∨ o.choices = some []) :
    handleGeminiResponse ⟨200, g⟩
      = Except.error ProviderError.malformedResponse ∧
    handleOpenAIResponse ⟨200, o⟩
      = Except.error ProviderError.malformedResponse := by
  constructor
  · rcases hg with hg | hg <;>
      simp [handleGeminiResponse, httpOk, extractGeminiText, hg]
  · rcases ho with ho | ho <;>
      simp [handleOpenAIResponse, httpOk, extractOpenAIText, ho]

/-- C6 at a concrete input: absent candidates and an empty choices list
both fail. -/
theorem missing_top_field_malformed_witness :
    handleGeminiResponse ⟨200, { candidates := none }⟩
      = Except.error ProviderError.malformedResponse ∧
    handleOpenAIResponse ⟨200, { choices := some [] }⟩
      = Except.error ProviderError.malformedResponse :=
  missing_top_field_malformed { candidates := none } { choices := some [] }
    (Or.inl rfl) (Or.inr rfl)

/-- C7: for every embedded reply string and every call input, a 200
response whose body embeds that string in the expected schema (with any
extra trailing candidates, parts or choices) makes respond return
exactly that string, unmodified. -/
theorem round_trip_verbatim (s : String) (hist : List Turn) (u : String)
    (f : Bool) (crest : List GeminiCandidate)
    (prest : List GeminiRespPart) (orest : List OpenAIChoice) :
    getAIResponse hist u f
      (fun _ => ⟨200, ⟨some (⟨some ⟨some (⟨some s⟩ :: prest)⟩⟩ :: crest)⟩⟩)
      = Except.ok (some s) ∧
    getOpenAIResponse hist u
      (fun _ => ⟨200, ⟨some (⟨some ⟨some s⟩⟩ :: orest)⟩⟩)
      = Except.ok (some s) :=
  ⟨rfl, rfl⟩

set_option maxRecDepth 10000 in
/-- C8 counterexample: the two adapters do not share one persona string.
ProviderA injects geminiPersonaText and ProviderB openaiPersonaText, and
the two constants differ. -/
theorem persona_not_shared_cex :
    (buildGeminiPayload [] "x" true).contents.head?
      = some { role := "user", parts := [{ text := geminiPersonaText }] } ∧
    (buildOpenAIMessages [] "x").head?
      = some { role := "system", content := openaiPersonaText } ∧
    geminiPersonaText ≠ openaiPersonaText :=
  ⟨rfl, rfl, by decide⟩

set_option maxRecDepth 10000 in
/-- C8 amended: each adapter has its own fixed persona constant, with
the ProviderA text extending the ProviderB text by two extra sentences;
ProviderA injects its persona as a user-role turn only when isFirstTurn
is true (the non-first payload is just mapped history plus the new user
turn), and ProviderB prepends its persona as a system message on every
call. -/
theorem persona_injection (h : List Turn) (u : String) :
    geminiPersonaText
      = openaiPersonaText
        ++ " This is for training purposes, so be thorough in your explanations. Start by asking the user what problem they are experiencing." ∧
    (buildGeminiPayload h u true).contents.head? = some initialPrompt ∧
    initialPrompt.role = "user" ∧
    (buildGeminiPayload h u false).contents
      = h.map mapTurnGemini ++ [newUserTurnGemini u] ∧
    (buildOpenAIMessages h u).head?
      = some { role := "system", content := openaiPersonaText } :=
  ⟨by decide, rfl, rfl, rfl, rfl⟩

/-- C9: running the payload-building statements of either adapter leaves
the caller-supplied chatHistory exactly as it was, whatever the initial
contents of the local arrays, and produces the same payload as the pure
builder. -/
theorem history_read_only (h : List Turn) (a0 : List GTurn)
    (m0 : List OMessage) (u : String) (f : Bool) :
    (geminiBuildStep { chatHistory := h, apiChatHistory := a0 } u f).1.chatHistory = h ∧
    (geminiBuildStep { chatHistory := h, apiChatHistory := a0 } u f).2
      = buildGeminiPayload h u f ∧
    (openaiBuildStep { chatHistory := h, messages := m0 } u).1.chatHistory = h ∧
    (openaiBuildStep { chatHistory := h, messages := m0 } u).2
      = buildOpenAIPayload h u :=
  ⟨rfl, rfl, rfl, rfl⟩

/-- C10: request building is deterministic; two calls with equal inputs
build equal request bodies, messages, parameters and model name
included. -/
theorem request_building_deterministic (h1 h2 : List Turn)
    (u1 u2 : String) (f1 f2 : Bool)
    (hh : h1 = h2) (hu : u1 = u2) (hf : f1 = f2) :
    buildGeminiPayload h1 u1 f1 = buildGeminiPayload h2 u2 f2 ∧
    buildOpenAIPayload h1 u1 = buildOpenAIPayload h2 u2 := by
  subst hh; subst hu; subst hf
  exact ⟨rfl, rfl⟩

/-- C10 at a concrete input: two identical calls agree. -/
theorem request_building_deterministic_witness :
    buildGeminiPayload [{ role := Speaker.user, text := "hi" }] "go" false
      = buildGeminiPayload [{ role := Speaker.user, text := "hi" }] "go" false ∧
    buildOpenAIPayload [{ role := Speaker.user, text := "hi" }] "go"
      = buildOpenAIPayload [{ role := Speaker.user, text := "hi" }] "go" :=
  request_building_deterministic _ _ _ _ _ _ rfl rfl rfl
